import Mathlib

/-!
Verification of `examples/language/llama/benchmark.py` (ColossalAI llama
benchmark script).  The script parses CLI arguments, selects a distributed
execution plugin, builds a synthetic dataset, instantiates a model and drives a
fixed number of timed training steps, reporting throughput at the end.

The argument parsing, plugin selection branch, config resolution, dataset
sizing and the two step loops are embedded directly from `benchmark.py`.
`PerformanceEvaluator` (from `performance_evaluator.py`) and `RandomDataset`
(from `data_utils.py`) are not part of the provided sources; they are modelled
from the specification's description of the performance-window policy and the
data feeder.  Wall-clock timestamps are represented as rationals.
-/

namespace Benchmark

/-- The set of `--plugin` values accepted by argparse
(`benchmark.py` lines 54-60, `choices=[...]`). -/
def pluginChoices : List String := ["gemini", "gemini_auto", "fsdp", "fsdp_cpu", "3d", "3d_cpu"]

/-- The CLI arguments of `benchmark.py` (lines 52-81) with their defaults.
Fractional arguments (`--warmup_ratio`, `--shard_param_frac`, ...) are
rationals here. -/
structure Args where
  config : String := "7b"
  plugin : String := "gemini"
  batch_size : Nat := 2
  num_steps : Nat := 5
  ignore_steps : Nat := 2
  grad_checkpoint : Bool := false
  max_length : Nat := 4096
  warmup_ratio : ℚ := 8 / 10
  memory_limit : Option Nat := none
  xformers : Bool := false
  shard_param_frac : ℚ := 1
  offload_optim_frac : ℚ := 0
  offload_param_frac : ℚ := 0
  tp : Nat := 1
  extra_dp : Nat := 1
  pp : Nat := 1
  mbs : Nat := 1
  zero : Nat := 0
  custom_ckpt : Bool := false
  profile : Bool := false
deriving Repr, DecidableEq

/-- Argparse validation of `--plugin`: a value outside `choices` makes
`parser.parse_args()` print an "invalid choice" message and exit the process
with an error, before `main` continues past line 81. -/
def parseArgs (a : Args) : Except String Args :=
  if a.plugin ∈ pluginChoices then .ok a
  else .error ("argument -p/--plugin: invalid choice: " ++ a.plugin)

/-- The plugin object constructed by the `if args.plugin == ...` chain
(`benchmark.py` lines 105-190).  Each constructor records the parameters the
script passes explicitly.  `gemini` and `geminiAuto` correspond to
`GeminiPlugin`, `torchFSDP` to `TorchFSDPPlugin` (with or without
`CPUOffload`), `hybridParallel` to `HybridParallelPlugin`. -/
inductive Plugin where
  | gemini (shard_param_frac offload_optim_frac offload_param_frac : ℚ)
      (tp_size extra_dp_size : Nat) (enable_flash_attention : Bool)
  | geminiAuto (warmup_non_model_data_ratio : ℚ) (tp_size extra_dp_size : Nat)
      (enable_flash_attention : Bool)
  | torchFSDP (cpu_offload : Bool)
  | hybridParallel (tp_size pp_size zero_stage : Nat) (cpu_offload : Bool)
      (microbatch_size : Nat) (enable_flash_attention : Bool) (custom_ckpt : Bool)
deriving Repr, DecidableEq

/-- `isinstance(plugin, HybridParallelPlugin)` (`benchmark.py` line 258). -/
def Plugin.isHybridParallel : Plugin → Bool
  | .hybridParallel _ _ _ _ _ _ _ => true
  | _ => false

/-- The `if args.plugin == "gemini": ... elif ... else: raise ValueError`
chain of `benchmark.py` lines 105-190, as a function from the parsed
arguments to either a plugin or the `ValueError` message. -/
def selectPlugin (args : Args) : Except String Plugin :=
  if args.plugin = "gemini" then
    .ok (.gemini args.shard_param_frac args.offload_optim_frac args.offload_param_frac
      args.tp args.extra_dp args.xformers)
  else if args.plugin = "gemini_auto" then
    .ok (.geminiAuto args.warmup_ratio args.tp args.extra_dp args.xformers)
  else if args.plugin = "fsdp" then
    .ok (.torchFSDP false)
  else if args.plugin = "fsdp_cpu" then
    .ok (.torchFSDP true)
  else if args.plugin = "3d" then
    .ok (.hybridParallel args.tp args.pp args.zero false args.mbs args.xformers args.custom_ckpt)
  else if args.plugin = "3d_cpu" then
    .ok (.hybridParallel args.tp args.pp args.zero true args.mbs args.xformers false)
  else
    .error ("Unknown plugin " ++ args.plugin)

/-- Modelled from the spec: the external plugin classes' `dp_size` attribute
(missing from the provided sources).  `GeminiPlugin` and
`HybridParallelPlugin` expose a `dp_size` attribute whose value is computed by
the external framework (abstracted here as the parameter `extDp`);
`TorchFSDPPlugin` defines no such attribute. -/
def Plugin.dpSizeAttr (p : Plugin) (extDp : Nat) : Option Nat :=
  match p with
  | .gemini _ _ _ _ _ _ => some extDp
  | .geminiAuto _ _ _ _ => some extDp
  | .torchFSDP _ => none
  | .hybridParallel _ _ _ _ _ _ _ => some extDp

/-- `dp_size = getattr(plugin, "dp_size", coordinator.world_size)`
(`benchmark.py` line 197). -/
def resolveDpSize (p : Plugin) (extDp worldSize : Nat) : Nat :=
  match p.dpSizeAttr extDp with
  | some d => d
  | none => worldSize

/-- The built-in model configuration tags, keys of `MODEL_CONFIGS`
(`benchmark.py` lines 28-45). -/
def modelConfigTags : List String := ["7b", "13b", "70b"]

/-- The fields of the predefined `LlamaConfig` entries of `MODEL_CONFIGS`
(`benchmark.py` lines 28-45) that the script passes explicitly, plus the
`vocab_size` each inherits from `LlamaConfig`'s default (32000). -/
structure LlamaCfg where
  hidden_size : Nat
  intermediate_size : Nat
  num_hidden_layers : Nat
  num_attention_heads : Nat
  max_position_embeddings : Nat
  num_key_value_heads : Nat
  vocab_size : Nat
deriving Repr, DecidableEq

/-- `MODEL_CONFIGS` (`benchmark.py` lines 28-45).  The `"7b"` entry keeps
`LlamaConfig` defaults except `max_position_embeddings`; `"13b"` and `"70b"`
override the listed fields. -/
def MODEL_CONFIGS : String → Option LlamaCfg
  | "7b" => some ⟨4096, 11008, 32, 32, 4096, 32, 32000⟩
  | "13b" => some ⟨5120, 13824, 40, 40, 4096, 40, 32000⟩
  | "70b" => some ⟨8192, 28672, 80, 64, 4096, 8, 32000⟩
  | _ => none

/-- The result of resolving `--config` (`benchmark.py` lines 199-202): a
built-in `LlamaConfig`, or a call to the external
`AutoConfig.from_pretrained(args.config, trust_remote_code=True)`. -/
inductive ConfigSource where
  | builtin (cfg : LlamaCfg)
  | external (name : String) (trust_remote_code : Bool)
deriving Repr, DecidableEq

/-- `if args.config in MODEL_CONFIGS: config = MODEL_CONFIGS[args.config]
else: config = AutoConfig.from_pretrained(args.config, trust_remote_code=True)`
(`benchmark.py` lines 199-202). -/
def resolveConfig (config : String) : ConfigSource :=
  match MODEL_CONFIGS config with
  | some cfg => .builtin cfg
  | none => .external config true

/-- `num_samples=args.batch_size * args.num_steps * dp_size`
(`benchmark.py` line 204). -/
def datasetNumSamples (args : Args) (dp_size : Nat) : Nat :=
  args.batch_size * args.num_steps * dp_size

/-- Modelled from the spec: `RandomDataset` (from `data_utils.py`, missing
from the provided sources) is the data feeder producing "a bounded synthetic
sequence of fixed-shape labeled samples"; its length is the `num_samples` it
is constructed with. -/
structure RandomDataset where
  num_samples : Nat
  max_length : Nat
  vocab_size : Nat
deriving Repr, DecidableEq

/-- Modelled from the spec: the number of samples of a `RandomDataset`. -/
def RandomDataset.length (d : RandomDataset) : Nat := d.num_samples

/-- The `RandomDataset(num_samples=..., max_length=..., vocab_size=...)` call
of `benchmark.py` lines 203-205. -/
def buildDataset (args : Args) (dp_size vocab_size : Nat) : RandomDataset :=
  { num_samples := datasetNumSamples args dp_size
    max_length := args.max_length
    vocab_size := vocab_size }

/-- Modelled from the spec: the state of `PerformanceEvaluator` (from
`performance_evaluator.py`, missing from the provided sources).  A step
measurement is "a pair (step index, elapsed wall-time)", "appended to an
ordered sequence; never mutated after append"; the evaluator holds the warmup
discard count `ignore_steps` and the data-parallel replica count
`dp_world_size` it was constructed with (`benchmark.py` lines 231-239), plus
the pending start timestamp between `on_step_start` and `on_step_end`. -/
structure PerfEvaluator where
  ignore_steps : Nat
  dp_world_size : Nat
  pending : Option (Nat × ℚ)
  measurements : List (Nat × ℚ)
deriving Repr, DecidableEq

/-- The evaluator as constructed at `benchmark.py` lines 231-239. -/
def PerfEvaluator.init (ignore_steps dp_world_size : Nat) : PerfEvaluator :=
  { ignore_steps := ignore_steps, dp_world_size := dp_world_size
    pending := none, measurements := [] }

/-- Modelled from the spec: `on_step_start(step)` records "a timestamp
immediately before ... each step's compute" together with the step index. -/
def PerfEvaluator.onStepStart (e : PerfEvaluator) (step : Nat) (now : ℚ) : PerfEvaluator :=
  { e with pending := some (step, now) }

/-- Modelled from the spec: `on_step_end` records the timestamp "immediately
... after each step's compute" and appends the step measurement
(step index, elapsed wall-time) to the ordered sequence. -/
def PerfEvaluator.onStepEnd (e : PerfEvaluator) (now : ℚ) : PerfEvaluator :=
  match e.pending with
  | some (step, t0) =>
      { e with pending := none, measurements := e.measurements ++ [(step, now - t0)] }
  | none => e

/-- The measurements inside the aggregation window `[ignore_steps, total_steps)`:
per the spec, the aggregate uses "only measurements with step index ≥
`ignore_steps`". -/
def PerfEvaluator.retained (e : PerfEvaluator) : List (Nat × ℚ) :=
  e.measurements.filter fun m => e.ignore_steps ≤ m.1

/-- Total elapsed wall-time over the retained window. -/
def PerfEvaluator.totalRetainedTime (e : PerfEvaluator) : ℚ :=
  (e.retained.map Prod.snd).sum

/-- Modelled from the spec: `on_fit_end` "compute[s] mean step time over the
retained window; derive[s] tokens/sec = (batch_size × sequence_length ×
retained_step_count) / total_retained_time, scaled by data-parallel replica
count"; the figure is "undefined/error when `ignore_steps >= num_steps`",
i.e. when the retained window is empty, which we render as `none`. -/
def PerfEvaluator.onFitEnd (e : PerfEvaluator) (batch_size seq_len : Nat) : Option ℚ :=
  if e.retained = [] then none
  else some ((batch_size * seq_len * e.retained.length : ℚ) / e.totalRetainedTime
    * e.dp_world_size)

/-- One timed step of either training loop (`benchmark.py` lines 260-272 and
274-282): `on_step_start(step)` at time `t0`, the step's compute, then
`on_step_end` at time `t1`. -/
def runStep (e : PerfEvaluator) (step : Nat) (t0 t1 : ℚ) : PerfEvaluator :=
  (e.onStepStart step t0).onStepEnd t1

/-- The step loop from step index `i` on, fed with the start/end timestamp
pair of each successive step. -/
def runLoop (e : PerfEvaluator) (i : Nat) : List (ℚ × ℚ) → PerfEvaluator
  | [] => e
  | (t0, t1) :: rest => runLoop (runStep e i t0 t1) (i + 1) rest

/-- What one step hands to `performance_evaluator.on_step_end`: the pipeline
branch passes the synthetic `input_ids=torch.empty(args.batch_size,
args.max_length)` (line 271); the plain branch passes the actual batch
`**batch` drawn from the dataloader (line 281), whose `input_ids` shape is
`(batch_size, max_length)` since every `RandomDataset` sample has
`max_length` tokens and the dataloader uses `drop_last=True`. -/
inductive ReportedSample where
  | syntheticEmpty (shape : Nat × Nat)
  | actualBatch (shape : Nat × Nat)
deriving Repr, DecidableEq

/-- The tensor shape of a reported sample. -/
def ReportedSample.shape : ReportedSample → Nat × Nat
  | .syntheticEmpty s => s
  | .actualBatch s => s

/-- Events of a program run, in the order `main` performs them:
`colossalai.launch_from_torch()` (line 83), plugin construction (105-190),
`Booster(plugin=plugin)` (192), config resolution (199-202), dataset and
dataloader construction (203-206), model construction (221-222), the per-step
events of the training loop (258-282), and `on_fit_end` (284). -/
inductive Event where
  | launchDistributed
  | constructPlugin (p : Plugin)
  | constructBooster
  | resolveCfg (src : ConfigSource)
  | constructDataset (d : RandomDataset)
  | constructDataloader (batch_size : Nat)
  | constructModel
  | stepStart (i : Nat)
  | computePipeline (i : Nat)
  | computeForwardBackward (i : Nat)
  | optimizerStep (i : Nat)
  | stepEnd (i : Nat) (sample : ReportedSample)
  | fitEnd
deriving Repr, DecidableEq

/-- `isinstance(plugin, HybridParallelPlugin) and args.pp > 1`
(`benchmark.py` line 258): whether the pipeline branch is taken. -/
def usesPipeline (args : Args) (p : Plugin) : Bool :=
  p.isHybridParallel && decide (1 < args.pp)

/-- The event trace of one training step.  Pipeline branch (lines 260-272):
`on_step_start(step)`, `booster.execute_pipeline(data_iter, ...)`,
`optimizer.step()`, `on_step_end(input_ids=torch.empty(batch_size,
max_length))`.  Plain branch (lines 274-282): `on_step_start(step)`, forward
and `booster.backward`, `optimizer.step()`, `on_step_end(**batch)`. -/
def stepTrace (args : Args) (pipeline : Bool) (i : Nat) : List Event :=
  if pipeline then
    [.stepStart i, .computePipeline i, .optimizerStep i,
     .stepEnd i (.syntheticEmpty (args.batch_size, args.max_length))]
  else
    [.stepStart i, .computeForwardBackward i, .optimizerStep i,
     .stepEnd i (.actualBatch (args.batch_size, args.max_length))]

/-- The event trace of the whole training loop over `n` steps
(`benchmark.py` lines 258-282). -/
def loopTrace (args : Args) (pipeline : Bool) (n : Nat) : List Event :=
  (List.range n).flatMap (stepTrace args pipeline)

/-- `config.vocab_size` at `benchmark.py` line 204: the vocab size of the
resolved config — the `LlamaConfig` default for a built-in tag, or whatever
the external `AutoConfig.from_pretrained` returns (abstracted as `vocab`). -/
def vocabSizeOf (args : Args) (vocab : Nat) : Nat :=
  match resolveConfig args.config with
  | .builtin cfg => cfg.vocab_size
  | .external _ _ => vocab

/-- The event trace of a successful run of `main` after plugin construction
succeeded, in source order (`benchmark.py` lines 83-285): distributed launch,
plugin, booster, config resolution, dataset, dataloader, model, the training
loop over `n` steps, `on_fit_end`. -/
def mainTrace (args : Args) (p : Plugin) (extDp worldSize vocab n : Nat) : List Event :=
  [.launchDistributed, .constructPlugin p, .constructBooster,
   .resolveCfg (resolveConfig args.config),
   .constructDataset (buildDataset args (resolveDpSize p extDp worldSize) (vocabSizeOf args vocab)),
   .constructDataloader args.batch_size, .constructModel]
  ++ loopTrace args (usesPipeline args p) n ++ [.fitEnd]

/-- The throughput figure `performance_evaluator.on_fit_end()` reports at the
end of a run (`benchmark.py` line 284): the evaluator is constructed with
`args.ignore_steps` and `dp_world_size=dp_size` (lines 231-239) and driven
through the step loop. -/
def mainReport (args : Args) (p : Plugin) (extDp worldSize : Nat)
    (times : List (ℚ × ℚ)) : Option ℚ :=
  (runLoop (PerfEvaluator.init args.ignore_steps (resolveDpSize p extDp worldSize)) 0
    (times.take args.num_steps)).onFitEnd args.batch_size args.max_length

/-- The whole program: argparse validation, then `main`'s sequence of
resource constructions and the training loop, producing the event trace and
the evaluator's final throughput report.  `extDp` abstracts the `dp_size`
the external plugin computes, `worldSize` the coordinator's world size,
`vocab` the vocab size of an externally resolved config, `times` the
start/end timestamps of the steps (the loop runs one step per dataloader
batch, `num_steps` of them when enough timestamps are supplied). -/
def runProgram (args : Args) (extDp worldSize vocab : Nat) (times : List (ℚ × ℚ)) :
    Except String (List Event × Option ℚ) :=
  match parseArgs args with
  | .error e => .error e
  | .ok args =>
    match selectPlugin args with
    | .error e => .error e
    | .ok plugin =>
      .ok (mainTrace args plugin extDp worldSize vocab (times.take args.num_steps).length,
           mainReport args plugin extDp worldSize times)

/-- The measurement list produced by timing successive steps starting at step
index `i`: the pair (step index, end - start) for each step. -/
def measList (i : Nat) : List (ℚ × ℚ) → List (Nat × ℚ)
  | [] => []
  | (t0, t1) :: rest => (i, t1 - t0) :: measList (i + 1) rest

/-! ### Helper lemmas about the evaluator loop -/

lemma runStep_eq (e : PerfEvaluator) (i : Nat) (t0 t1 : ℚ) :
    runStep e i t0 t1
      = { e with pending := none, measurements := e.measurements ++ [(i, t1 - t0)] } := rfl

lemma runLoop_measurements (ts : List (ℚ × ℚ)) : ∀ (e : PerfEvaluator) (i : Nat),
    (runLoop e i ts).measurements = e.measurements ++ measList i ts := by
  induction ts with
  | nil => intro e i; simp [runLoop, measList]
  | cons t rest ih =>
    intro e i
    obtain ⟨t0, t1⟩ := t
    rw [runLoop, measList, ih, runStep_eq]
    simp

lemma runLoop_ignore_steps (ts : List (ℚ × ℚ)) : ∀ (e : PerfEvaluator) (i : Nat),
    (runLoop e i ts).ignore_steps = e.ignore_steps := by
  induction ts with
  | nil => intro e i; rfl
  | cons t rest ih =>
    intro e i
    obtain ⟨t0, t1⟩ := t
    rw [runLoop, ih, runStep_eq]

lemma runLoop_dp_world_size (ts : List (ℚ × ℚ)) : ∀ (e : PerfEvaluator) (i : Nat),
    (runLoop e i ts).dp_world_size = e.dp_world_size := by
  induction ts with
  | nil => intro e i; rfl
  | cons t rest ih =>
    intro e i
    obtain ⟨t0, t1⟩ := t
    rw [runLoop, ih, runStep_eq]

lemma measList_length (ts : List (ℚ × ℚ)) : ∀ i, (measList i ts).length = ts.length := by
  induction ts with
  | nil => intro i; rfl
  | cons t rest ih =>
    intro i
    obtain ⟨t0, t1⟩ := t
    simp [measList, ih]

lemma measList_map_fst (ts : List (ℚ × ℚ)) : ∀ i,
    (measList i ts).map Prod.fst = List.range' i ts.length := by
  induction ts with
  | nil => intro i; rfl
  | cons t rest ih =>
    intro i
    obtain ⟨t0, t1⟩ := t
    show i :: (measList (i + 1) rest).map Prod.fst = List.range' i (rest.length + 1)
    rw [ih, List.range'_succ]

lemma snd_of_mem_measList (ts : List (ℚ × ℚ)) : ∀ i m, m ∈ measList i ts →
    ∃ t ∈ ts, m.2 = t.2 - t.1 := by
  induction ts with
  | nil => intro i m h; cases h
  | cons t rest ih =>
    intro i m h
    obtain ⟨t0, t1⟩ := t
    rcases List.mem_cons.mp h with h | h
    · exact ⟨(t0, t1), List.mem_cons_self _ _, by rw [h]⟩
    · obtain ⟨u, hu, he⟩ := ih (i + 1) m h
      exact ⟨u, List.mem_cons_of_mem _ hu, he⟩

lemma measList_filter (ig : Nat) (ts : List (ℚ × ℚ)) : ∀ i,
    (measList i ts).filter (fun m => decide (ig ≤ m.1))
      = measList (max i ig) (ts.drop (ig - i)) := by
  induction ts with
  | nil => intro i; simp [measList]
  | cons t rest ih =>
    intro i
    obtain ⟨t0, t1⟩ := t
    by_cases h : ig ≤ i
    · rw [measList, List.filter_cons]
      simp only [decide_eq_true_eq, h, if_pos]
      rw [ih (i + 1), Nat.max_eq_left (Nat.le_succ_of_le h), Nat.sub_eq_zero_of_le h,
        Nat.sub_eq_zero_of_le (Nat.le_succ_of_le h), Nat.max_eq_left h]
      rfl
    · push_neg at h
      rw [measList, List.filter_cons]
      simp only [decide_eq_true_eq, if_neg (Nat.not_le.mpr h)]
      rw [ih (i + 1), Nat.max_eq_right (Nat.succ_le_of_lt h), Nat.max_eq_right h.le]
      have hdrop : ig - i = (ig - (i + 1)) + 1 := by omega
      rw [hdrop]
      rfl

/-- The retained window of a full run from a fresh evaluator: exactly the
measurements of steps `ig, ig+1, ...`. -/
lemma retained_runLoop (ig dp : Nat) (ts : List (ℚ × ℚ)) :
    (runLoop (PerfEvaluator.init ig dp) 0 ts).retained = measList ig (ts.drop ig) := by
  unfold PerfEvaluator.retained
  rw [runLoop_measurements, runLoop_ignore_steps]
  show (([] : List (Nat × ℚ)) ++ measList 0 ts).filter (fun m => decide (ig ≤ m.1))
      = measList ig (ts.drop ig)
  rw [List.nil_append, measList_filter ig ts 0, Nat.max_eq_right (Nat.zero_le ig),
    Nat.sub_zero]

/-! ### Helper lemmas about the program flow -/

lemma parseArgs_ok (args : Args) (hmem : args.plugin ∈ pluginChoices) :
    parseArgs args = .ok args := by
  unfold parseArgs; rw [if_pos hmem]

lemma parseArgs_ok_inv {a args : Args} (h : parseArgs a = .ok args) :
    a = args ∧ a.plugin ∈ pluginChoices := by
  by_cases hm : a.plugin ∈ pluginChoices
  · refine ⟨?_, hm⟩
    unfold parseArgs at h
    rw [if_pos hm] at h
    exact (Except.ok.injEq _ _).mp h
  · unfold parseArgs at h
    rw [if_neg hm] at h
    cases h

lemma runProgram_ok (args : Args) (extDp worldSize vocab : Nat) (ts : List (ℚ × ℚ))
    (p : Plugin) (hmem : args.plugin ∈ pluginChoices) (hp : selectPlugin args = .ok p) :
    runProgram args extDp worldSize vocab ts
      = .ok (mainTrace args p extDp worldSize vocab (ts.take args.num_steps).length,
             mainReport args p extDp worldSize ts) := by
  simp only [runProgram, parseArgs_ok args hmem, hp]

lemma runProgram_ok_inv {args : Args} {extDp worldSize vocab : Nat} {ts : List (ℚ × ℚ)}
    {tr : List Event} {rep : Option ℚ}
    (h : runProgram args extDp worldSize vocab ts = .ok (tr, rep)) :
    args.plugin ∈ pluginChoices ∧ ∃ p, selectPlugin args = .ok p
      ∧ tr = mainTrace args p extDp worldSize vocab (ts.take args.num_steps).length
      ∧ rep = mainReport args p extDp worldSize ts := by
  unfold runProgram at h
  cases hpa : parseArgs args with
  | error e => rw [hpa] at h; cases h
  | ok a =>
    obtain ⟨heq, hmem⟩ := parseArgs_ok_inv hpa
    subst heq
    rw [hpa] at h
    cases hps : selectPlugin args with
    | error e => simp only [hps] at h; cases h
    | ok p =>
      simp only [hps, Except.ok.injEq, Prod.mk.injEq] at h
      exact ⟨hmem, p, rfl, h.1.symm, h.2.symm⟩

lemma selectPlugin_not_mem {args : Args} (hmem : args.plugin ∉ pluginChoices) :
    runProgram args = fun _ _ _ _ =>
      .error ("argument -p/--plugin: invalid choice: " ++ args.plugin) := by
  funext extDp worldSize vocab ts
  unfold runProgram parseArgs
  rw [if_neg hmem]

/-- Splitting the loop trace at a step: the events of steps `0..i-1`, then
step `i`'s events, then the rest. -/
lemma loopTrace_split (args : Args) (pl : Bool) {n i : Nat} (hi : i < n) :
    loopTrace args pl n
      = loopTrace args pl i ++ stepTrace args pl i
        ++ (List.range' (i + 1) (n - i - 1)).flatMap (stepTrace args pl) := by
  unfold loopTrace
  obtain ⟨k, rfl⟩ : ∃ k, n = i + 1 + k := ⟨n - i - 1, by omega⟩
  have hk : i + 1 + k - i - 1 = k := by omega
  rw [hk, List.range_add, List.flatMap_append, List.range_succ, List.flatMap_append]
  simp [List.range'_eq_map_range, List.flatMap_map, Nat.add_comm]

lemma not_constructDataset_mem_stepTrace (args : Args) (pl : Bool) (i : Nat)
    (d : RandomDataset) : Event.constructDataset d ∉ stepTrace args pl i := by
  cases pl <;> simp [stepTrace]

lemma not_constructDataset_mem_loopTrace (args : Args) (pl : Bool) (n : Nat)
    (d : RandomDataset) : Event.constructDataset d ∉ loopTrace args pl n := by
  intro h
  rw [loopTrace, List.mem_flatMap] at h
  obtain ⟨i, _, hi⟩ := h
  exact not_constructDataset_mem_stepTrace args pl i d hi

lemma selectPlugin_ok_of_mem {args : Args} (hmem : args.plugin ∈ pluginChoices) :
    ∃ p, selectPlugin args = .ok p := by
  unfold selectPlugin
  simp only [pluginChoices, List.mem_cons, List.not_mem_nil, or_false] at hmem
  rcases hmem with h | h | h | h | h | h <;> rw [h] <;> exact ⟨_, rfl⟩

lemma selectPlugin_hybrid_iff {args : Args} {p : Plugin} (hp : selectPlugin args = .ok p) :
    p.isHybridParallel = true ↔ args.plugin = "3d" ∨ args.plugin = "3d_cpu" := by
  unfold selectPlugin at hp
  split_ifs at hp with h1 h2 h3 h4 h5 h6
  · injection hp with h; subst h; simp [Plugin.isHybridParallel, h1]
  · injection hp with h; subst h; simp [Plugin.isHybridParallel, h2]
  · injection hp with h; subst h; simp [Plugin.isHybridParallel, h3]
  · injection hp with h; subst h; simp [Plugin.isHybridParallel, h4]
  · injection hp with h; subst h; simp [Plugin.isHybridParallel, h5]
  · injection hp with h; subst h; simp [Plugin.isHybridParallel, h6]

/-- The evaluator at the end of a run: constructed with `ignore_steps` and
the resolved `dp_size`, then driven through the step loop. -/
def finalEvaluator (args : Args) (p : Plugin) (extDp worldSize : Nat)
    (ts : List (ℚ × ℚ)) : PerfEvaluator :=
  runLoop (PerfEvaluator.init args.ignore_steps (resolveDpSize p extDp worldSize)) 0
    (ts.take args.num_steps)

lemma mainReport_eq (args : Args) (p : Plugin) (extDp worldSize : Nat)
    (ts : List (ℚ × ℚ)) :
    mainReport args p extDp worldSize ts
      = (finalEvaluator args p extDp worldSize ts).onFitEnd args.batch_size args.max_length :=
  rfl

lemma finalEvaluator_dp_world_size (args : Args) (p : Plugin) (extDp worldSize : Nat)
    (ts : List (ℚ × ℚ)) :
    (finalEvaluator args p extDp worldSize ts).dp_world_size
      = resolveDpSize p extDp worldSize := by
  unfold finalEvaluator
  rw [runLoop_dp_world_size]
  rfl

lemma MODEL_CONFIGS_eq_none {c : String} (h : c ∉ modelConfigTags) :
    MODEL_CONFIGS c = none := by
  unfold MODEL_CONFIGS
  split
  · exfalso; apply h; simp_all [modelConfigTags]
  · exfalso; apply h; simp_all [modelConfigTags]
  · exfalso; apply h; simp_all [modelConfigTags]
  · rfl

/-! ### Claim theorems -/

/-- C1: for every `--plugin` value outside {gemini, gemini_auto, fsdp,
fsdp_cpu, 3d, 3d_cpu}, the program terminates with a fatal configuration
error carrying a descriptive message, producing no event trace — so no
dataset, model, or distributed resource is ever constructed. -/
theorem unknown_plugin_fatal (args : Args) (hmem : args.plugin ∉ pluginChoices)
    (extDp worldSize vocab : Nat) (ts : List (ℚ × ℚ)) :
    runProgram args extDp worldSize vocab ts
      = .error ("argument -p/--plugin: invalid choice: " ++ args.plugin) := by
  rw [selectPlugin_not_mem hmem]

theorem unknown_plugin_fatal_witness :
    ({ plugin := "ddp" } : Args).plugin ∉ pluginChoices
    ∧ runProgram { plugin := "ddp" } 1 1 0 []
        = .error ("argument -p/--plugin: invalid choice: "
            ++ ({ plugin := "ddp" } : Args).plugin) :=
  ⟨by decide, unknown_plugin_fatal { plugin := "ddp" } (by decide) 1 1 0 []⟩

/-- C2: for every `--plugin` value in the supported set, strategy selection
constructs a plugin (a non-null `Except.ok`) and hands it to the Booster
facility: the run succeeds and its trace opens with the distributed launch,
the construction of that very plugin, and the booster construction. -/
theorem supported_plugin_boosted (args : Args) (hmem : args.plugin ∈ pluginChoices)
    (extDp worldSize vocab : Nat) (ts : List (ℚ × ℚ)) :
    ∃ p rest, selectPlugin args = .ok p
      ∧ runProgram args extDp worldSize vocab ts
        = .ok (Event.launchDistributed :: Event.constructPlugin p
            :: Event.constructBooster :: rest,
          mainReport args p extDp worldSize ts) := by
  obtain ⟨p, hp⟩ := selectPlugin_ok_of_mem hmem
  refine ⟨p, [Event.resolveCfg (resolveConfig args.config),
    Event.constructDataset (buildDataset args (resolveDpSize p extDp worldSize)
      (vocabSizeOf args vocab)),
    Event.constructDataloader args.batch_size, Event.constructModel]
    ++ loopTrace args (usesPipeline args p) (ts.take args.num_steps).length
    ++ [Event.fitEnd], hp, ?_⟩
  rw [runProgram_ok args extDp worldSize vocab ts p hmem hp]
  rfl

theorem supported_plugin_boosted_witness :
    ({} : Args).plugin ∈ pluginChoices
    ∧ ∃ p rest, selectPlugin ({} : Args) = .ok p
      ∧ runProgram {} 1 1 0 []
        = .ok (Event.launchDistributed :: Event.constructPlugin p
            :: Event.constructBooster :: rest, mainReport {} p 1 1 []) :=
  ⟨by decide, supported_plugin_boosted {} (by decide) 1 1 0 []⟩

/-- C3: in every successful run, any synthetic dataset constructed along the
trace has length exactly `batch_size × num_steps × data_parallel_size`, the
data-parallel size being the one resolved from the selected plugin. -/
theorem dataset_length_exact {args : Args} {extDp worldSize vocab : Nat}
    {ts : List (ℚ × ℚ)} {tr : List Event} {rep : Option ℚ}
    (h : runProgram args extDp worldSize vocab ts = .ok (tr, rep))
    {d : RandomDataset} (hd : Event.constructDataset d ∈ tr) :
    ∃ p, selectPlugin args = .ok p
      ∧ d.length = args.batch_size * args.num_steps * resolveDpSize p extDp worldSize := by
  obtain ⟨hmem, p, hp, htr, hrep⟩ := runProgram_ok_inv h
  subst htr
  refine ⟨p, hp, ?_⟩
  have hnotloop := not_constructDataset_mem_loopTrace args (usesPipeline args p)
    (ts.take args.num_steps).length d
  simp only [mainTrace, List.mem_append, List.mem_cons, List.not_mem_nil, or_false,
    Event.constructDataset.injEq, reduceCtorEq, false_or, or_false, hnotloop] at hd
  subst hd
  rfl

theorem dataset_length_exact_witness :
    ∃ p, selectPlugin ({} : Args) = .ok p
      ∧ (buildDataset {} 4 32000).length
          = ({} : Args).batch_size * ({} : Args).num_steps * resolveDpSize p 4 1 :=
  @dataset_length_exact {} 4 1 0 [] _ _ rfl (buildDataset {} 4 32000) (by decide)

/-- C4: the final aggregate is computed from exactly the measurements whose
step index is ≥ `ignore_steps`: the total retained time sums precisely the
measurements filtered by that condition, the retained step indices are
exactly `[ignore_steps, total_steps)`, and with 5 steps and `ignore_steps=2`
exactly 3 measurements (steps 2, 3, 4) contribute. -/
theorem aggregate_window (ig dp : Nat) (ts : List (ℚ × ℚ)) :
    (runLoop (PerfEvaluator.init ig dp) 0 ts).totalRetainedTime
        = (((runLoop (PerfEvaluator.init ig dp) 0 ts).measurements.filter
            (fun m => decide (ig ≤ m.1))).map Prod.snd).sum
    ∧ (runLoop (PerfEvaluator.init ig dp) 0 ts).retained.map Prod.fst
        = List.range' ig (ts.length - ig)
    ∧ (ig = 2 → ts.length = 5 →
        (runLoop (PerfEvaluator.init ig dp) 0 ts).retained.length = 3
        ∧ (runLoop (PerfEvaluator.init ig dp) 0 ts).retained.map Prod.fst = [2, 3, 4]) := by
  have hfst : (runLoop (PerfEvaluator.init ig dp) 0 ts).retained.map Prod.fst
      = List.range' ig (ts.length - ig) := by
    rw [retained_runLoop, measList_map_fst, List.length_drop]
  refine ⟨?_, hfst, ?_⟩
  · unfold PerfEvaluator.totalRetainedTime PerfEvaluator.retained
    rw [runLoop_ignore_steps]
    rfl
  · intro hig hlen
    constructor
    · rw [retained_runLoop, measList_length, List.length_drop, hig, hlen]
    · rw [hfst, hig, hlen]
      rfl

theorem aggregate_window_witness :
    (runLoop (PerfEvaluator.init 2 1) 0
        [((0:ℚ), (1:ℚ)), (1, 2), (2, 3), (3, 4), (4, 5)]).retained.length = 3
    ∧ (runLoop (PerfEvaluator.init 2 1) 0
        [((0:ℚ), (1:ℚ)), (1, 2), (2, 3), (3, 4), (4, 5)]).retained.map Prod.fst
      = [2, 3, 4] :=
  (aggregate_window 2 1 [((0:ℚ), (1:ℚ)), (1, 2), (2, 3), (3, 4), (4, 5)]).2.2 rfl rfl

/-- C5: on completion the reported throughput equals
`(batch_size × sequence_length × retained_step_count) / total_retained_time`
scaled by the data-parallel replica count, where the retained steps are those
with index ≥ `ignore_steps` (the run's sequence length is `max_length`). -/
theorem throughput_formula (args : Args) (extDp worldSize vocab : Nat)
    (ts : List (ℚ × ℚ)) (p : Plugin)
    (hmem : args.plugin ∈ pluginChoices) (hp : selectPlugin args = .ok p)
    (hne : (finalEvaluator args p extDp worldSize ts).retained ≠ []) :
    ∃ tr, runProgram args extDp worldSize vocab ts
      = .ok (tr, some ((args.batch_size * args.max_length
            * (finalEvaluator args p extDp worldSize ts).retained.length : ℚ)
          / (finalEvaluator args p extDp worldSize ts).totalRetainedTime
          * resolveDpSize p extDp worldSize)) := by
  have hrep : mainReport args p extDp worldSize ts
      = some ((args.batch_size * args.max_length
            * (finalEvaluator args p extDp worldSize ts).retained.length : ℚ)
          / (finalEvaluator args p extDp worldSize ts).totalRetainedTime
          * resolveDpSize p extDp worldSize) := by
    rw [mainReport_eq]
    unfold PerfEvaluator.onFitEnd
    rw [if_neg hne, finalEvaluator_dp_world_size]
  exact ⟨_, by rw [runProgram_ok args extDp worldSize vocab ts p hmem hp, hrep]⟩

/-- Five consecutive unit-length step intervals, a sample timing input. -/
def sampleTs : List (ℚ × ℚ) := [(0, 1), (1, 2), (2, 3), (3, 4), (4, 5)]

theorem throughput_formula_witness :
    ({} : Args).plugin ∈ pluginChoices
    ∧ selectPlugin ({} : Args) = .ok (Plugin.gemini 1 0 0 1 1 false)
    ∧ (finalEvaluator {} (Plugin.gemini 1 0 0 1 1 false) 1 1 sampleTs).retained ≠ []
    ∧ ∃ tr, runProgram {} 1 1 0 sampleTs
      = .ok (tr, some ((({} : Args).batch_size * ({} : Args).max_length
            * (finalEvaluator {} (Plugin.gemini 1 0 0 1 1 false) 1 1
                sampleTs).retained.length : ℚ)
          / (finalEvaluator {} (Plugin.gemini 1 0 0 1 1 false) 1 1
              sampleTs).totalRetainedTime
          * resolveDpSize (Plugin.gemini 1 0 0 1 1 false) 1 1)) := by
  have hne : (finalEvaluator {} (Plugin.gemini 1 0 0 1 1 false) 1 1 sampleTs).retained
      ≠ [] := by decide
  exact ⟨by decide, rfl, hne,
    throughput_formula {} 1 1 0 sampleTs (Plugin.gemini 1 0 0 1 1 false) (by decide) rfl hne⟩

/-- C6: when at least one step with index ≥ `ignore_steps` is recorded (and
every recorded step took positive time), the reported throughput is a defined
— hence finite — rational and strictly positive; when `ignore_steps` is at
least the number of recorded steps, no figure is produced. -/
theorem throughput_positive_or_undefined (ig dp b l : Nat) (ts : List (ℚ × ℚ))
    (hpos : ∀ t ∈ ts, t.1 < t.2) (hdp : 0 < dp) (hb : 0 < b) (hl : 0 < l) :
    (ig < ts.length →
      ∃ r : ℚ, (runLoop (PerfEvaluator.init ig dp) 0 ts).onFitEnd b l = some r ∧ 0 < r)
    ∧ (ts.length ≤ ig →
      (runLoop (PerfEvaluator.init ig dp) 0 ts).onFitEnd b l = none) := by
  have hret := retained_runLoop ig dp ts
  have hdw : (runLoop (PerfEvaluator.init ig dp) 0 ts).dp_world_size = dp :=
    runLoop_dp_world_size ts _ 0
  constructor
  · intro hlt
    have hne : (runLoop (PerfEvaluator.init ig dp) 0 ts).retained ≠ [] := by
      rw [hret]
      cases hcase : ts.drop ig with
      | nil =>
        exfalso
        have := congrArg List.length hcase
        rw [List.length_drop] at this
        simp at this
        omega
      | cons a rest =>
        obtain ⟨a0, a1⟩ := a
        simp [measList]
    have hsnd : ∀ m ∈ (runLoop (PerfEvaluator.init ig dp) 0 ts).retained, 0 < m.2 := by
      intro m hm
      rw [hret] at hm
      obtain ⟨t, ht, he⟩ := snd_of_mem_measList (ts.drop ig) ig m hm
      rw [he]
      exact sub_pos.mpr (hpos t (List.mem_of_mem_drop ht))
    have htot : 0 < (runLoop (PerfEvaluator.init ig dp) 0 ts).totalRetainedTime := by
      unfold PerfEvaluator.totalRetainedTime
      apply List.sum_pos
      · intro x hx
        obtain ⟨m, hm, rfl⟩ := List.mem_map.mp hx
        exact hsnd m hm
      · simpa using hne
    have hlen : 0 < (runLoop (PerfEvaluator.init ig dp) 0 ts).retained.length :=
      List.length_pos.mpr hne
    refine ⟨(b * l * (runLoop (PerfEvaluator.init ig dp) 0 ts).retained.length : ℚ)
        / (runLoop (PerfEvaluator.init ig dp) 0 ts).totalRetainedTime * dp, ?_, ?_⟩
    · unfold PerfEvaluator.onFitEnd
      rw [if_neg hne, hdw]
    · have hb' : (0:ℚ) < b := by exact_mod_cast hb
      have hl' : (0:ℚ) < l := by exact_mod_cast hl
      have hlen' : (0:ℚ) < (runLoop (PerfEvaluator.init ig dp) 0 ts).retained.length := by
        exact_mod_cast hlen
      have hdp' : (0:ℚ) < dp := by exact_mod_cast hdp
      exact mul_pos (div_pos (mul_pos (mul_pos hb' hl') hlen') htot) hdp'
  · intro hge
    have hnil : (runLoop (PerfEvaluator.init ig dp) 0 ts).retained = [] := by
      rw [hret, List.drop_eq_nil_of_le hge]
      rfl
    unfold PerfEvaluator.onFitEnd
    rw [if_pos hnil]

theorem throughput_positive_or_undefined_witness :
    (∀ t ∈ sampleTs, t.1 < t.2) ∧ (2 < sampleTs.length)
    ∧ ∃ r : ℚ, (runLoop (PerfEvaluator.init 2 1) 0 sampleTs).onFitEnd 2 4096 = some r
        ∧ 0 < r :=
  ⟨by decide, by decide,
    (throughput_positive_or_undefined 2 1 2 4096 sampleTs (by decide)
      (by decide) (by decide) (by decide)).1 (by decide)⟩

/-- C7: in both the pipeline and the non-pipeline loop, every executed step
contributes the contiguous event block measurement-start, compute (pipeline
execution or forward/backward), optimizer update, measurement-end; and
measurements are appended in step order (indices `j, j+1, ...`) with the
previously appended list preserved unchanged. -/
theorem step_measurement_ordering (args : Args) (pl : Bool) (n i : Nat) (hi : i < n)
    (e : PerfEvaluator) (j : Nat) (ts : List (ℚ × ℚ)) :
    (∃ pre post sample,
      loopTrace args pl n
        = pre ++ Event.stepStart i
            :: (if pl then Event.computePipeline i else Event.computeForwardBackward i)
            :: Event.optimizerStep i :: Event.stepEnd i sample :: post)
    ∧ (runLoop e j ts).measurements = e.measurements ++ measList j ts
    ∧ (measList j ts).map Prod.fst = List.range' j ts.length := by
  refine ⟨?_, runLoop_measurements ts e j, measList_map_fst ts j⟩
  refine ⟨loopTrace args pl i,
    (List.range' (i + 1) (n - i - 1)).flatMap (stepTrace args pl),
    (if pl then ReportedSample.syntheticEmpty (args.batch_size, args.max_length)
      else ReportedSample.actualBatch (args.batch_size, args.max_length)), ?_⟩
  rw [loopTrace_split args pl hi]
  cases pl <;> simp [stepTrace]

theorem step_measurement_ordering_witness :
    (runLoop (PerfEvaluator.init 2 1) 0 sampleTs).measurements
      = (PerfEvaluator.init 2 1).measurements ++ measList 0 sampleTs :=
  (step_measurement_ordering {} true 2 0 (by decide) (PerfEvaluator.init 2 1) 0
    sampleTs).2.1

/-- C8: the data-parallel size used for dataset sizing and throughput scaling
is the plugin's `dp_size` attribute when the plugin defines one — the Gemini
and hybrid-parallel plugins do — and falls back to the coordinator's world
size exactly for `TorchFSDPPlugin`, the plugin the `fsdp` and `fsdp_cpu`
choices construct. -/
theorem dp_size_resolution (p : Plugin) (extDp worldSize : Nat) (args : Args) (v : Nat) :
    (∀ d, p.dpSizeAttr extDp = some d → resolveDpSize p extDp worldSize = d)
    ∧ (p.dpSizeAttr extDp = none → resolveDpSize p extDp worldSize = worldSize)
    ∧ (p.dpSizeAttr extDp = none ↔ ∃ c, p = .torchFSDP c)
    ∧ (∀ a : Args, a.plugin = "fsdp" ∨ a.plugin = "fsdp_cpu" →
        ∃ c, selectPlugin a = .ok (.torchFSDP c))
    ∧ (buildDataset args (resolveDpSize p extDp worldSize) v).length
        = datasetNumSamples args (resolveDpSize p extDp worldSize)
    ∧ (PerfEvaluator.init args.ignore_steps (resolveDpSize p extDp worldSize)).dp_world_size
        = resolveDpSize p extDp worldSize := by
  refine ⟨?_, ?_, ?_, ?_, rfl, rfl⟩
  · intro d hd; unfold resolveDpSize; rw [hd]
  · intro hd; unfold resolveDpSize; rw [hd]
  · cases p <;> simp [Plugin.dpSizeAttr]
  · intro a ha
    rcases ha with h | h
    · exact ⟨false, by unfold selectPlugin; rw [h]; rfl⟩
    · exact ⟨true, by unfold selectPlugin; rw [h]; rfl⟩

theorem dp_size_resolution_witness :
    resolveDpSize (Plugin.torchFSDP false) 7 3 = 3 :=
  (dp_size_resolution (Plugin.torchFSDP false) 7 3 {} 0).2.1 rfl

/-- C9: a `--config` value is never locally rejected: each built-in tag
("7b", "13b", "70b") resolves to its predefined config, any other value is
forwarded unchecked to the external `AutoConfig.from_pretrained` with
`trust_remote_code` enabled, and resolution always produces one of the two
outcomes — never a local error. -/
theorem config_resolution_total (c : String) :
    (∀ cfg, MODEL_CONFIGS c = some cfg → resolveConfig c = .builtin cfg)
    ∧ (c ∉ modelConfigTags → resolveConfig c = .external c true)
    ∧ ((∃ cfg, MODEL_CONFIGS c = some cfg ∧ resolveConfig c = .builtin cfg)
        ∨ resolveConfig c = .external c true)
    ∧ resolveConfig "7b" = .builtin ⟨4096, 11008, 32, 32, 4096, 32, 32000⟩
    ∧ resolveConfig "13b" = .builtin ⟨5120, 13824, 40, 40, 4096, 40, 32000⟩
    ∧ resolveConfig "70b" = .builtin ⟨8192, 28672, 80, 64, 4096, 8, 32000⟩ := by
  refine ⟨?_, ?_, ?_, rfl, rfl, rfl⟩
  · intro cfg hc; unfold resolveConfig; rw [hc]
  · intro hc; unfold resolveConfig; rw [ MODEL_CONFIGS_eq_none hc]
  · cases hm : MODEL_CONFIGS c with
    | some cfg => exact .inl ⟨cfg, rfl, by unfold resolveConfig; rw [hm]⟩
    | none => exact .inr (by unfold resolveConfig; rw [hm])

theorem config_resolution_total_witness :
    resolveConfig "345m" = .external "345m" true :=
  (config_resolution_total "345m").2.1 (by decide)

/-- C10: the pipeline execution path is taken iff the selected plugin is the
hybrid-parallel plugin (i.e. the `--plugin` value was "3d" or "3d_cpu") and
`--pp > 1`; in the pipeline path the per-step sample reported to the
performance evaluator is a synthetic tensor of shape
`(batch_size, max_length)`, while the plain loop reports the actual batch. -/
theorem pipeline_branch_iff (args : Args) (p : Plugin)
    (hp : selectPlugin args = .ok p) (i : Nat) :
    (usesPipeline args p = true ↔ p.isHybridParallel = true ∧ 1 < args.pp)
    ∧ (p.isHybridParallel = true ↔ args.plugin = "3d" ∨ args.plugin = "3d_cpu")
    ∧ stepTrace args true i
        = [.stepStart i, .computePipeline i, .optimizerStep i,
           .stepEnd i (.syntheticEmpty (args.batch_size, args.max_length))]
    ∧ stepTrace args false i
        = [.stepStart i, .computeForwardBackward i, .optimizerStep i,
           .stepEnd i (.actualBatch (args.batch_size, args.max_length))] := by
  refine ⟨?_, selectPlugin_hybrid_iff hp, rfl, rfl⟩
  simp [usesPipeline]

theorem pipeline_branch_iff_witness :
    stepTrace { plugin := "3d", pp := 4 } true 0
      = [.stepStart 0, .computePipeline 0, .optimizerStep 0,
         .stepEnd 0 (.syntheticEmpty (2, 4096))] :=
  (pipeline_branch_iff { plugin := "3d", pp := 4 }
    (.hybridParallel 1 4 0 false 1 false false) rfl 0).2.2.1

end Benchmark
